import Mathlib

/-!
Verification of the autonomous action engine of the ResolveMeQ helpdesk
(tickets/rollback.py, tickets/tasks.py, tickets/views.py, tickets/models.py).

The Python code is shallowly embedded: Django ORM rows become Lean
structures, JSON dict snapshots become structures of `Option` fields
(`none` = key absent or null), persistence is explicit state passing, and
`timezone.now()` is a `now : Nat` parameter.  A write to the database only
takes effect when the corresponding `save()` succeeds; a `FailSpec`
parameter says which persistence step (if any) raises, mirroring the
`try/except` blocks in rollback.py.
-/

namespace ResolveMeQ

/-- JSON snapshot dict stored in `ActionHistory.before_state` or
`after_state`; a field is `none` when the key is absent or its value null
(Python dict `.get` cannot tell the two apart). -/
structure Snapshot where
  status : Option String
  assigned_to_id : Option Nat
  deriving Repr, DecidableEq

/-- Row of tickets/models.py `ActionHistory` (the fields the engine reads
or writes). -/
structure ActionHistory where
  action_type : String
  confidence_score : Option ℚ
  agent_reasoning : String
  rollback_possible : Bool
  rollback_steps : Option String
  rolled_back : Bool
  rolled_back_at : Option Nat
  rolled_back_by : Option Nat
  rollback_reason : String
  before_state : Option Snapshot
  after_state : Option Snapshot
  deriving Repr, DecidableEq

/-- Row of tickets/models.py `TicketInteraction`. -/
structure TicketInteraction where
  user : Option Nat
  interaction_type : String
  content : String
  deriving Repr, DecidableEq

/-- The slice of a tickets/models.py `Ticket` row that the Rollback
Manager touches: `status` and `assigned_to` (user id). -/
structure Ticket where
  status : String
  assigned_to : Option Nat
  deriving Repr, DecidableEq

/-- Persistent state seen by one `RollbackManager.execute_rollback` call:
the ticket row, the targeted `ActionHistory` row, and the ticket's
interaction log. -/
structure RbState where
  ticket : Ticket
  entry : ActionHistory
  interactions : List TicketInteraction
  deriving Repr, DecidableEq

/-- Which persistence write (if any) raises inside the `try` block of a
rollback handler; the handlers in rollback.py perform, in order:
`ticket.save()`, `TicketInteraction.objects.create(...)`,
`action_history.save()`. -/
structure FailSpec where
  ticket_save_fails : Bool
  interaction_create_fails : Bool
  entry_save_fails : Bool
  deriving Repr, DecidableEq

/-- Every persistence write succeeds. -/
def noFail : FailSpec :=
  { ticket_save_fails := false, interaction_create_fails := false, entry_save_fails := false }

/-- Lines 47-50 of rollback.py (and the identical blocks of the other two
handlers): set `rolled_back`, `rolled_back_at`, `rolled_back_by`,
`rollback_reason` on the history row. -/
def markRolledBack (e : ActionHistory) (rollback_by : Nat) (reason : String) (now : Nat) :
    ActionHistory :=
  { e with rolled_back := true, rolled_back_at := some now,
           rolled_back_by := some rollback_by, rollback_reason := reason }

namespace RollbackManager

/-- rollback.py `RollbackManager.rollback_auto_resolve`, with an explicit
`fail` oracle for the persistence writes inside its `try` block.  On the
first failing write the Python exception handler returns `False`; all
writes already performed stay committed. -/
def rollback_auto_resolve_f (fail : FailSpec) (s : RbState) (rollback_by : Nat)
    (reason : String) (now : Nat) : Bool × RbState :=
  let newStatus : String :=
    match s.entry.before_state with
    | some bs => bs.status.getD "in-progress"
    | none => "in-progress"
  if fail.ticket_save_fails then (false, s)
  else
    let s1 : RbState := { s with ticket := { s.ticket with status := newStatus } }
    if fail.interaction_create_fails then (false, s1)
    else
      let s2 : RbState :=
        { s1 with interactions := s1.interactions ++
            [{ user := some rollback_by, interaction_type := "agent_response",
               content := "🔄 Auto-resolution was rolled back.\n\nReason: " ++ reason ++
                 "\n\nTicket reopened for manual review." }] }
      if fail.entry_save_fails then (false, s2)
      else (true, { s2 with entry := markRolledBack s2.entry rollback_by reason now })

/-- rollback.py `RollbackManager.rollback_assign_to_team`.  The `users`
list models the `User` table; `User.objects.get` on an id not in it raises
(caught, returning `False` with nothing written).  The Python guard
`if prev_assignee_id:` is truthiness, hence the `≠ 0` test. -/
def rollback_assign_to_team_f (fail : FailSpec) (users : List Nat) (s : RbState)
    (rollback_by : Nat) (reason : String) (now : Nat) : Bool × RbState :=
  let newAssignee : Option (Option Nat) :=
    match s.entry.before_state with
    | some bs =>
      match bs.assigned_to_id with
      | some prev =>
        if prev ≠ 0 then (if prev ∈ users then some (some prev) else none)
        else some none
      | none => some none
    | none => some none
  match newAssignee with
  | none => (false, s)
  | some a =>
    if fail.ticket_save_fails then (false, s)
    else
      let s1 : RbState := { s with ticket := { s.ticket with assigned_to := a } }
      if fail.interaction_create_fails then (false, s1)
      else
        let s2 : RbState :=
          { s1 with interactions := s1.interactions ++
              [{ user := some rollback_by, interaction_type := "agent_response",
                 content := "🔄 Team assignment was rolled back.\n\nReason: " ++ reason }] }
        if fail.entry_save_fails then (false, s2)
        else (true, { s2 with entry := markRolledBack s2.entry rollback_by reason now })

/-- rollback.py `RollbackManager.rollback_escalate`. -/
def rollback_escalate_f (fail : FailSpec) (s : RbState) (rollback_by : Nat)
    (reason : String) (now : Nat) : Bool × RbState :=
  let newStatus : String :=
    match s.entry.before_state with
    | some bs => bs.status.getD "new"
    | none => "new"
  if fail.ticket_save_fails then (false, s)
  else
    let s1 : RbState := { s with ticket := { s.ticket with status := newStatus } }
    if fail.interaction_create_fails then (false, s1)
    else
      let s2 : RbState :=
        { s1 with interactions := s1.interactions ++
            [{ user := some rollback_by, interaction_type := "agent_response",
               content := "🔄 Escalation was rolled back.\n\nReason: " ++ reason }] }
      if fail.entry_save_fails then (false, s2)
      else (true, { s2 with entry := markRolledBack s2.entry rollback_by reason now })

/-- rollback.py `ROLLBACK_SUPPORTED` inside `can_rollback`. -/
def ROLLBACK_SUPPORTED : List String :=
  ["AUTO_RESOLVE", "ASSIGN_TO_TEAM", "ESCALATE", "SCHEDULE_FOLLOWUP"]

/-- rollback.py `RollbackManager.can_rollback`: membership test in
`ROLLBACK_SUPPORTED`. -/
def can_rollback (action_type : String) : Bool :=
  decide (action_type ∈ ROLLBACK_SUPPORTED)

/-- rollback.py `RollbackManager.execute_rollback` (with failure oracle):
dispatch on `action_history.action_type`; unknown types fall through to
`return False` with no mutation.  Note the source performs no check of
`rolled_back` here. -/
def execute_rollback_f (fail : FailSpec) (users : List Nat) (s : RbState)
    (rollback_by : Nat) (reason : String) (now : Nat) : Bool × RbState :=
  if s.entry.action_type = "AUTO_RESOLVE" then
    rollback_auto_resolve_f fail s rollback_by reason now
  else if s.entry.action_type = "ASSIGN_TO_TEAM" then
    rollback_assign_to_team_f fail users s rollback_by reason now
  else if s.entry.action_type = "ESCALATE" then
    rollback_escalate_f fail s rollback_by reason now
  else (false, s)

/-- rollback.py `RollbackManager.execute_rollback` on the happy path where
every persistence write succeeds. -/
def execute_rollback (users : List Nat) (s : RbState) (rollback_by : Nat)
    (reason : String) (now : Nat) : Bool × RbState :=
  execute_rollback_f noFail users s rollback_by reason now

end RollbackManager

/-- Outcome of the HTTP view tickets/views.py `rollback_action` (after the
permission check, which the spec treats as an external concern):
`alreadyRolledBack` and `notSupported` are the 400 rejections,
`failed` the 500 response when `execute_rollback` returns `False`. -/
inductive RollbackViewResult
  | alreadyRolledBack
  | notSupported
  | success
  | failed
  deriving Repr, DecidableEq

/-- tickets/views.py `rollback_action` (lines 745-778): reject if the
entry is already rolled back, reject if `can_rollback` is false, default
the reason, then call `RollbackManager.execute_rollback`. -/
def rollback_action (users : List Nat) (s : RbState) (actor : Nat)
    (reason : Option String) (now : Nat) : RollbackViewResult × RbState :=
  if s.entry.rolled_back then (RollbackViewResult.alreadyRolledBack, s)
  else if ¬ RollbackManager.can_rollback s.entry.action_type then
    (RollbackViewResult.notSupported, s)
  else
    let r := RollbackManager.execute_rollback users s actor
      (reason.getD "Manual rollback by admin") now
    if r.1 then (RollbackViewResult.success, r.2) else (RollbackViewResult.failed, r.2)

/-- The parsed `agent_response` JSON payload on a ticket, as read by
tasks.py (`.get with a default` on the keys `confidence` and
`explanation`). -/
structure AgentResponse where
  confidence : Option ℚ
  explanation : Option String
  deriving Repr, DecidableEq

/-- The slice of a `Ticket` row the Action Executor reads and writes. -/
structure ExecTicket where
  user : Nat
  status : String
  assigned_to : Option Nat
  agent_response : Option AgentResponse
  deriving Repr, DecidableEq

/-- The action-specific `params` dict handed to the executor handlers in
tasks.py; each field mirrors a `.get` key used there. -/
structure ActionParams where
  resolution_steps : Option String
  escalation_reason : Option String
  assigned_team : Option String
  priority : Option String
  deriving Repr, DecidableEq

/-- Row of tickets/models.py `TicketResolution`. -/
structure TicketResolution where
  autonomous_action : String
  resolution_confirmed : Option Bool
  user_feedback_text : String
  satisfaction_score : Option Nat
  followup_sent_at : Option Nat
  response_received_at : Option Nat
  reopened : Bool
  reopened_at : Option Nat
  reopened_reason : String
  deriving Repr, DecidableEq

/-- A fresh `TicketResolution` row as `get_or_create` builds it: the
model defaults plus the `defaults=` dict of the call site. -/
def newResolution (action : String) : TicketResolution :=
  { autonomous_action := action, resolution_confirmed := none,
    user_feedback_text := "", satisfaction_score := none,
    followup_sent_at := none, response_received_at := none,
    reopened := false, reopened_at := none, reopened_reason := "" }

/-- tickets/models.py `TicketResolution.was_successful`: `some false` when
reopened, `some true` on confirmation or a truthy satisfaction score of at
least 4, otherwise `none` (unknown; the Python guard
`if self.satisfaction_score and ...` is truthiness, hence the `≠ 0`). -/
def was_successful (r : TicketResolution) : Option Bool :=
  if r.reopened then some false
  else if r.resolution_confirmed = some true then some true
  else
    match r.satisfaction_score with
    | some n => if n ≠ 0 ∧ 4 ≤ n then some true else none
    | none => none

/-- One `apply_async` call recorded by the executor (tasks.py): the task
name and its `countdown` in seconds. -/
structure ScheduledTask where
  task : String
  countdown : Nat
  deriving Repr, DecidableEq

/-- Persistent state seen by the Action Executor for one ticket: the
ticket row, its action history (in execution order), its interaction log,
its (at most one) `TicketResolution` row, and the queue of scheduled
follow-up tasks. -/
structure ExecState where
  ticket : ExecTicket
  history : List ActionHistory
  interactions : List TicketInteraction
  resolution : Option TicketResolution
  scheduled : List ScheduledTask
  deriving Repr, DecidableEq

/-- tasks.py idiom `ticket.agent_response.get("confidence", 0.0) if
isinstance(...) else 0.0`. -/
def ticketConfidence (t : ExecTicket) : ℚ :=
  match t.agent_response with
  | some ar => ar.confidence.getD 0
  | none => 0

/-- tasks.py idiom `ticket.agent_response.get("explanation", "") if
isinstance(...) else ""`. -/
def ticketExplanation (t : ExecTicket) : String :=
  match t.agent_response with
  | some ar => ar.explanation.getD ""
  | none => ""

/-- The snapshot dict built in tasks.py `handle_auto_resolve` and
`handle_assign_to_team`: keys `status` and `assigned_to_id` (the latter
null when unassigned). -/
def snapshotOf (t : ExecTicket) : Snapshot :=
  { status := some t.status, assigned_to_id := t.assigned_to }

/-- tasks.py `handle_auto_resolve`: snapshot, set `status = "resolved"`,
snapshot again, create one `ActionHistory` row (unconditionally), one
interaction, `get_or_create` the `TicketResolution` row, and schedule
`schedule_resolution_followup` with `countdown=86400`. -/
def handle_auto_resolve (s : ExecState) (params : ActionParams) : Bool × ExecState :=
  let before_state := snapshotOf s.ticket
  let resolution_steps := params.resolution_steps.getD "No steps provided"
  let confidence := ticketConfidence s.ticket
  let reasoning := ticketExplanation s.ticket
  let t1 : ExecTicket := { s.ticket with status := "resolved" }
  let after_state := snapshotOf t1
  let entry : ActionHistory :=
    { action_type := "AUTO_RESOLVE", confidence_score := some confidence,
      agent_reasoning := reasoning, rollback_possible := true,
      rollback_steps := some "rollback_auto_resolve",
      rolled_back := false, rolled_back_at := none, rolled_back_by := none,
      rollback_reason := "",
      before_state := some before_state, after_state := some after_state }
  let inter : TicketInteraction :=
    { user := some s.ticket.user, interaction_type := "agent_response",
      content := "ü§ñ Auto-resolved by AI Agent.\n\nResolution:\n" ++ resolution_steps }
  let res1 : Option TicketResolution :=
    match s.resolution with
    | some r => some r
    | none => some (newResolution "AUTO_RESOLVE")
  (true,
   { ticket := t1,
     history := s.history ++ [entry],
     interactions := s.interactions ++ [inter],
     resolution := res1,
     scheduled := s.scheduled ++ [{ task := "schedule_resolution_followup", countdown := 86400 }] })

/-- tasks.py `handle_escalate`: snapshot `status` only, set
`status = "escalated"`, one `ActionHistory` row with the reasoning taken
from `params.get("escalation_reason", "Requires human attention")`, one
interaction. -/
def handle_escalate (s : ExecState) (params : ActionParams) : Bool × ExecState :=
  let before_state : Snapshot := { status := some s.ticket.status, assigned_to_id := none }
  let t1 : ExecTicket := { s.ticket with status := "escalated" }
  let after_state : Snapshot := { status := some t1.status, assigned_to_id := none }
  let confidence := ticketConfidence s.ticket
  let reasoning := params.escalation_reason.getD "Requires human attention"
  let entry : ActionHistory :=
    { action_type := "ESCALATE", confidence_score := some confidence,
      agent_reasoning := reasoning, rollback_possible := true,
      rollback_steps := some "rollback_escalate",
      rolled_back := false, rolled_back_at := none, rolled_back_by := none,
      rollback_reason := "",
      before_state := some before_state, after_state := some after_state }
  let inter : TicketInteraction :=
    { user := some s.ticket.user, interaction_type := "agent_response",
      content := "‚ö†Ô∏è Escalated: " ++ reasoning }
  (true,
   { ticket := t1,
     history := s.history ++ [entry],
     interactions := s.interactions ++ [inter],
     resolution := s.resolution,
     scheduled := s.scheduled })

/-- tasks.py `handle_assign_to_team`: snapshot `assigned_to_id` and
`status`, set `status = "assigned"` (the assignee itself is never
changed), one `ActionHistory` row, one interaction. -/
def handle_assign_to_team (s : ExecState) (params : ActionParams) : Bool × ExecState :=
  let before_state := snapshotOf s.ticket
  let assigned_team := params.assigned_team.getD "IT Support"
  let t1 : ExecTicket := { s.ticket with status := "assigned" }
  let after_state := snapshotOf t1
  let confidence := ticketConfidence s.ticket
  let entry : ActionHistory :=
    { action_type := "ASSIGN_TO_TEAM", confidence_score := some confidence,
      agent_reasoning := "Assigned to " ++ assigned_team, rollback_possible := true,
      rollback_steps := some "rollback_assign_to_team",
      rolled_back := false, rolled_back_at := none, rolled_back_by := none,
      rollback_reason := "",
      before_state := some before_state, after_state := some after_state }
  let inter : TicketInteraction :=
    { user := some s.ticket.user, interaction_type := "agent_response",
      content := "üë• Assigned to " ++ assigned_team }
  (true,
   { ticket := t1,
     history := s.history ++ [entry],
     interactions := s.interactions ++ [inter],
     resolution := s.resolution,
     scheduled := s.scheduled })

/-- tasks.py `check_ticket_followup`: if the ticket status is not in
`["resolved", "closed"]`, call `handle_escalate` with a fresh params dict
whose `escalation_reason` is the fixed sentence and `priority` is
`high`; otherwise only log (no state change).  The `original_params`
argument is received but never used by the body. -/
def check_ticket_followup (s : ExecState) (original_params : ActionParams) : ExecState :=
  if s.ticket.status ∈ (["resolved", "closed"] : List String) then s
  else
    (handle_escalate s
      { resolution_steps := none,
        escalation_reason := some "Solution did not resolve issue within expected timeframe",
        assigned_team := none, priority := some "high" }).2

/-- Request body of the feedback endpoint, as read by
tickets/views.py `submit_resolution_feedback` via `request.data.get`. -/
structure FeedbackRequest where
  resolution_confirmed : Option Bool
  satisfaction_score : Option Nat
  feedback_text : Option String
  deriving Repr, DecidableEq

/-- tickets/views.py `submit_resolution_feedback` (lines 845-869):
`get_or_create` the `TicketResolution` row (default action `MANUAL`),
overwrite the feedback fields, stamp `response_received_at`, and when
`resolution_confirmed is False` mark the row reopened and set the ticket
status to `escalated`. -/
def submit_resolution_feedback (s : ExecState) (req : FeedbackRequest) (now : Nat) :
    ExecState :=
  let res0 : TicketResolution :=
    match s.resolution with
    | some r => r
    | none => newResolution "MANUAL"
  let res1 : TicketResolution :=
    { res0 with resolution_confirmed := req.resolution_confirmed,
                satisfaction_score := req.satisfaction_score,
                user_feedback_text := req.feedback_text.getD "",
                response_received_at := some now }
  if req.resolution_confirmed = some false then
    let res2 : TicketResolution :=
      { res1 with reopened := true, reopened_at := some now,
                  reopened_reason := req.feedback_text.getD "User reported issue not resolved" }
    { s with resolution := some res2,
             ticket := { s.ticket with status := "escalated" } }
  else
    { s with resolution := some res1 }

/-- The six action types of the autonomous agent, as dispatched on in
tasks.py `execute_autonomous_action`. -/
inductive AgentAction
  | AUTO_RESOLVE
  | ESCALATE
  | REQUEST_CLARIFICATION
  | ASSIGN_TO_TEAM
  | SCHEDULE_FOLLOWUP
  | CREATE_KB_ARTICLE
  deriving Repr, DecidableEq

/-- The inputs of the Decision Policy named by spec §4.1: the AI
confidence, the ticket category, and the structured hints of the AI
signal. -/
structure PolicySignal where
  confidence : ℚ
  category : String
  resolution_steps_present : Bool
  required_fields_missing : Bool
  tentative_fix_suggested : Bool
  deriving Repr, DecidableEq

/-- Spec §4.1 recommended default high-confidence threshold. -/
def HIGH_CONFIDENCE_THRESHOLD : ℚ := 8 / 10

/-- Spec §4.1 recommended low threshold (lower edge of the middle band). -/
def LOW_CONFIDENCE_THRESHOLD : ℚ := 1 / 2

/-- Modelled from the spec: the Decision Policy
`AutonomousAgent.decide_autonomous_action` lives in
tickets/autonomous_agent.py, which tickets/tasks.py imports but which is
absent from the sources; this definition follows spec §4.1 rule by rule —
security-category override, then high-confidence auto-resolve, then the
middle band, then the low/missing-fields clarification, then the fail-safe
escalation. -/
def decide_autonomous_action (sig : PolicySignal) : AgentAction :=
  if sig.category = "security" then AgentAction.ESCALATE
  else if HIGH_CONFIDENCE_THRESHOLD ≤ sig.confidence ∧ sig.resolution_steps_present then
    AgentAction.AUTO_RESOLVE
  else if LOW_CONFIDENCE_THRESHOLD ≤ sig.confidence ∧
          sig.confidence < HIGH_CONFIDENCE_THRESHOLD then
    (if sig.tentative_fix_suggested then AgentAction.SCHEDULE_FOLLOWUP
     else AgentAction.ASSIGN_TO_TEAM)
  else if sig.confidence < LOW_CONFIDENCE_THRESHOLD ∨ sig.required_fields_missing then
    AgentAction.REQUEST_CLARIFICATION
  else AgentAction.ESCALATE

/-! ## Theorems -/

/-- C9: Decision Policy totality — every input signal (any confidence,
including the edge values 0.0, 0.5, 0.8, 1.0, any category and hints)
maps to exactly one of the six defined action types; there is no
"no action" outcome. -/
theorem C9_decision_policy_totality (sig : PolicySignal) :
    decide_autonomous_action sig = AgentAction.AUTO_RESOLVE ∨
    decide_autonomous_action sig = AgentAction.ESCALATE ∨
    decide_autonomous_action sig = AgentAction.REQUEST_CLARIFICATION ∨
    decide_autonomous_action sig = AgentAction.ASSIGN_TO_TEAM ∨
    decide_autonomous_action sig = AgentAction.SCHEDULE_FOLLOWUP ∨
    decide_autonomous_action sig = AgentAction.CREATE_KB_ARTICLE := by
  cases h : decide_autonomous_action sig <;> simp

/-- C4: rollback eligibility — `can_rollback` is true exactly for
AUTO_RESOLVE, ASSIGN_TO_TEAM, ESCALATE and SCHEDULE_FOLLOWUP, and on a
REQUEST_CLARIFICATION or CREATE_KB_ARTICLE entry `execute_rollback`
always fails and mutates neither the ticket nor the entry, surfaced by
the API view as the invalid-action rejection. -/
theorem C4_rollback_eligibility (t : String) (users : List Nat) (s : RbState)
    (actor : Nat) (r : String) (reqReason : Option String) (now : Nat) :
    (RollbackManager.can_rollback t = true ↔
      (t = "AUTO_RESOLVE" ∨ t = "ASSIGN_TO_TEAM" ∨ t = "ESCALATE" ∨
       t = "SCHEDULE_FOLLOWUP")) ∧
    ((s.entry.action_type = "REQUEST_CLARIFICATION" ∨
      s.entry.action_type = "CREATE_KB_ARTICLE") →
      RollbackManager.execute_rollback users s actor r now = (false, s) ∧
      (s.entry.rolled_back = false →
        rollback_action users s actor reqReason now = (RollbackViewResult.notSupported, s))) := by
  constructor
  · simp [RollbackManager.can_rollback, RollbackManager.ROLLBACK_SUPPORTED]
  · intro hty
    have hexec : RollbackManager.execute_rollback users s actor r now = (false, s) := by
      rcases hty with h | h <;>
        simp [RollbackManager.execute_rollback, RollbackManager.execute_rollback_f, h]
    refine ⟨hexec, ?_⟩
    intro hrb
    rcases hty with h | h <;>
      simp [rollback_action, hrb, h, RollbackManager.can_rollback,
        RollbackManager.ROLLBACK_SUPPORTED]

/-- Concrete REQUEST_CLARIFICATION history entry used to witness C4. -/
def c4_entry : ActionHistory :=
  { action_type := "REQUEST_CLARIFICATION", confidence_score := none,
    agent_reasoning := "", rollback_possible := false, rollback_steps := none,
    rolled_back := false, rolled_back_at := none, rolled_back_by := none,
    rollback_reason := "",
    before_state := none, after_state := none }

/-- Concrete rollback state used to witness C4. -/
def c4_state : RbState :=
  { ticket := { status := "pending_clarification", assigned_to := none },
    entry := c4_entry, interactions := [] }

/-- C4 witness: the eligibility facts at concrete inputs. -/
theorem C4_rollback_eligibility_witness :
    RollbackManager.execute_rollback [] c4_state 1 "undo" 0 = (false, c4_state) ∧
    rollback_action [] c4_state 1 none 0 = (RollbackViewResult.notSupported, c4_state) :=
  ⟨((C4_rollback_eligibility "REQUEST_CLARIFICATION" [] c4_state 1 "undo" none 0).2
      (Or.inl rfl)).1,
   ((C4_rollback_eligibility "REQUEST_CLARIFICATION" [] c4_state 1 "undo" none 0).2
      (Or.inl rfl)).2 rfl⟩

/-- Concrete AUTO_RESOLVE history entry that is already rolled back. -/
def c1_entry : ActionHistory :=
  { action_type := "AUTO_RESOLVE", confidence_score := none,
    agent_reasoning := "", rollback_possible := true,
    rollback_steps := some "rollback_auto_resolve",
    rolled_back := true, rolled_back_at := some 1, rolled_back_by := some 2,
    rollback_reason := "first",
    before_state := some { status := some "in_progress", assigned_to_id := none },
    after_state := some { status := some "resolved", assigned_to_id := none } }

/-- Concrete rollback state whose entry is already rolled back. -/
def c1_already : RbState :=
  { ticket := { status := "in_progress", assigned_to := none },
    entry := c1_entry, interactions := [] }

/-- C1 counterexample: `RollbackManager.execute_rollback` performs no
already-rolled-back check — on an entry with `rolled_back = true` it
returns success and silently overwrites the rollback bookkeeping
(`rolled_back_by`, `rollback_reason`) instead of rejecting with a
caller-visible error. -/
theorem C1_execute_rollback_no_conflict_check :
    (RollbackManager.execute_rollback [] c1_already 7 "again" 9).1 = true ∧
    (RollbackManager.execute_rollback [] c1_already 7 "again" 9).2.entry.rollback_reason
      = "again" ∧
    (RollbackManager.execute_rollback [] c1_already 7 "again" 9).2.entry.rolled_back_by
      = some 7 := by
  refine ⟨rfl, ?_, rfl⟩
  decide

/-- C1 (amended): the already-rolled-back rejection lives in the API view
`rollback_action`, not in `execute_rollback` — on an initially-unrolled
AUTO_RESOLVE or ESCALATE entry the first view call succeeds and sets
`rolled_back = true`, and a second view call is rejected with the
conflict error, leaving the whole state (ticket status, assignee and
rollback fields) unchanged. -/
theorem C1_view_at_most_once (users : List Nat) (s : RbState) (a1 a2 : Nat)
    (r1 r2 : Option String) (t1 t2 : Nat)
    (h0 : s.entry.rolled_back = false)
    (hty : s.entry.action_type = "AUTO_RESOLVE" ∨ s.entry.action_type = "ESCALATE") :
    (rollback_action users s a1 r1 t1).1 = RollbackViewResult.success ∧
    (rollback_action users s a1 r1 t1).2.entry.rolled_back = true ∧
    rollback_action users (rollback_action users s a1 r1 t1).2 a2 r2 t2 =
      (RollbackViewResult.alreadyRolledBack, (rollback_action users s a1 r1 t1).2) := by
  rcases hty with h | h <;>
    simp [rollback_action, RollbackManager.execute_rollback,
      RollbackManager.execute_rollback_f, RollbackManager.rollback_auto_resolve_f,
      RollbackManager.rollback_escalate_f, RollbackManager.can_rollback,
      RollbackManager.ROLLBACK_SUPPORTED, noFail, markRolledBack, h0, h]

/-- Concrete unrolled AUTO_RESOLVE entry used to witness C1. -/
def c1_fresh : RbState :=
  { ticket := { status := "resolved", assigned_to := none },
    entry := { c1_entry with rolled_back := false, rolled_back_at := none,
                             rolled_back_by := none, rollback_reason := "" },
    interactions := [] }

/-- C1 witness: the amended at-most-once behaviour at a concrete state. -/
theorem C1_view_at_most_once_witness :
    (rollback_action [] c1_fresh 3 none 10).1 = RollbackViewResult.success ∧
    (rollback_action [] c1_fresh 3 none 10).2.entry.rolled_back = true ∧
    rollback_action [] (rollback_action [] c1_fresh 3 none 10).2 4 none 11 =
      (RollbackViewResult.alreadyRolledBack, (rollback_action [] c1_fresh 3 none 10).2) :=
  C1_view_at_most_once [] c1_fresh 3 4 none none 10 11 rfl (Or.inl rfl)

/-- Concrete AUTO_RESOLVE history entry with no `before_state` snapshot. -/
def c2_entry : ActionHistory :=
  { action_type := "AUTO_RESOLVE", confidence_score := none,
    agent_reasoning := "", rollback_possible := true,
    rollback_steps := some "rollback_auto_resolve",
    rolled_back := false, rolled_back_at := none, rolled_back_by := none,
    rollback_reason := "",
    before_state := none,
    after_state := some { status := some "resolved", assigned_to_id := none } }

/-- Concrete rollback state whose entry has no snapshot. -/
def c2_absent : RbState :=
  { ticket := { status := "resolved", assigned_to := none },
    entry := c2_entry, interactions := [] }

/-- C2 counterexample: with the snapshot absent, rolling back an
AUTO_RESOLVE entry sets the status to the hyphenated literal
`"in-progress"`, which is not the claimed default `"in_progress"` (the
spelling used everywhere else in the data model and tests). -/
theorem C2_default_status_hyphenated :
    (RollbackManager.execute_rollback [] c2_absent 1 "undo" 3).2.ticket.status
      = "in-progress" ∧
    "in-progress" ≠ "in_progress" := by
  refine ⟨rfl, ?_⟩
  decide

/-- C2 (amended): rollback restores the snapshot exactly — when
`before_state` carries a `status`, the ticket status is set to exactly
that string; when the snapshot is absent the status defaults to
`"in-progress"` (hyphenated) for AUTO_RESOLVE and to `"new"` for
ESCALATE. -/
theorem C2_rollback_restores_snapshot (users : List Nat) (s : RbState) (actor : Nat)
    (r : String) (now : Nat) :
    ((s.entry.action_type = "AUTO_RESOLVE" ∨ s.entry.action_type = "ESCALATE") →
      ∀ bs st, s.entry.before_state = some bs → bs.status = some st →
        (RollbackManager.execute_rollback users s actor r now).2.ticket.status = st) ∧
    (s.entry.action_type = "AUTO_RESOLVE" → s.entry.before_state = none →
      (RollbackManager.execute_rollback users s actor r now).2.ticket.status
        = "in-progress") ∧
    (s.entry.action_type = "ESCALATE" → s.entry.before_state = none →
      (RollbackManager.execute_rollback users s actor r now).2.ticket.status = "new") := by
  refine ⟨?_, ?_, ?_⟩
  · intro hty bs st hbs hst
    rcases hty with h | h <;>
      simp [RollbackManager.execute_rollback, RollbackManager.execute_rollback_f,
        RollbackManager.rollback_auto_resolve_f, RollbackManager.rollback_escalate_f,
        noFail, markRolledBack, h, hbs, hst]
  · intro h hbs
    simp [RollbackManager.execute_rollback, RollbackManager.execute_rollback_f,
      RollbackManager.rollback_auto_resolve_f, noFail, markRolledBack, h, hbs]
  · intro h hbs
    simp [RollbackManager.execute_rollback, RollbackManager.execute_rollback_f,
      RollbackManager.rollback_escalate_f, noFail, markRolledBack, h, hbs]

/-- Concrete state for the C2 witness: an AUTO_RESOLVE entry whose
snapshot records status `in_progress` while the ticket is `resolved`. -/
def c2_snap : RbState :=
  { ticket := { status := "resolved", assigned_to := none },
    entry := { c2_entry with
      before_state := some { status := some "in_progress", assigned_to_id := none } },
    interactions := [] }

/-- C2 witness: the exact-restore clause at a concrete state. -/
theorem C2_rollback_restores_snapshot_witness :
    (RollbackManager.execute_rollback [] c2_snap 1 "undo" 3).2.ticket.status
      = "in_progress" :=
  (C2_rollback_restores_snapshot [] c2_snap 1 "undo" 3).1 (Or.inl rfl)
    { status := some "in_progress", assigned_to_id := none } "in_progress" rfl rfl

/-- Params of the prior AUTO_RESOLVE execution used for C3. -/
def c3_params : ActionParams :=
  { resolution_steps := some "restart client\nupdate driver",
    escalation_reason := none, assigned_team := none, priority := none }

/-- History entry written by the first AUTO_RESOLVE execution on the C3
ticket. -/
def c3_prior : ActionHistory :=
  { action_type := "AUTO_RESOLVE", confidence_score := some (92 / 100),
    agent_reasoning := "known fix", rollback_possible := true,
    rollback_steps := some "rollback_auto_resolve",
    rolled_back := false, rolled_back_at := none, rolled_back_by := none,
    rollback_reason := "",
    before_state := some { status := some "in_progress", assigned_to_id := none },
    after_state := some { status := some "resolved", assigned_to_id := none } }

/-- Executor state after the first AUTO_RESOLVE: the ticket is already
`resolved` and its history holds one entry; a redelivered task calls
`handle_auto_resolve` again on this state. -/
def c3_state : ExecState :=
  { ticket := { user := 5, status := "resolved", assigned_to := none,
                agent_response := some { confidence := some (92 / 100),
                                         explanation := some "known fix" } },
    history := [c3_prior],
    interactions := [], resolution := some (newResolution "AUTO_RESOLVE"),
    scheduled := [{ task := "schedule_resolution_followup", countdown := 86400 }] }

/-- C3: executing AUTO_RESOLVE on a ticket whose status is already
`resolved` (an at-least-once redelivery) is not a no-op — the code
returns success but unconditionally appends a second ActionHistory entry
whose snapshots record `resolved` on both sides, exactly the duplicate
contradictory entry the contract forbids. -/
theorem C3_auto_resolve_not_idempotent :
    (handle_auto_resolve c3_state c3_params).1 = true ∧
    (handle_auto_resolve c3_state c3_params).2.history.length = 2 ∧
    ((handle_auto_resolve c3_state c3_params).2.history[1]?).map
        ActionHistory.before_state
      = some (some { status := some "resolved", assigned_to_id := none }) ∧
    ((handle_auto_resolve c3_state c3_params).2.history[1]?).map
        ActionHistory.after_state
      = some (some { status := some "resolved", assigned_to_id := none }) := by
  refine ⟨rfl, rfl, ?_, ?_⟩ <;> decide

/-- Concrete rollback state whose AUTO_RESOLVE entry is unrolled: used to
exhibit a persistence failure after the ticket write. -/
def c5_state : RbState :=
  { ticket := { status := "resolved", assigned_to := none },
    entry := { c2_entry with
      before_state := some { status := some "in_progress", assigned_to_id := none } },
    interactions := [] }

/-- The entry save (the last write) raises; the ticket save and the
interaction write have already been committed. -/
def c5_fail : FailSpec :=
  { ticket_save_fails := false, interaction_create_fails := false,
    entry_save_fails := true }

/-- C5 counterexample: when the final `action_history.save()` raises,
`execute_rollback` does return false — but it does NOT leave state
untouched: the ticket status has already been restored and committed,
while the entry is not marked rolled back, i.e. a ticket effect without
the flag. -/
theorem C5_not_atomic_on_failure :
    (RollbackManager.execute_rollback_f c5_fail [] c5_state 1 "undo" 4).1 = false ∧
    (RollbackManager.execute_rollback_f c5_fail [] c5_state 1 "undo" 4).2.ticket.status
      = "in_progress" ∧
    c5_state.ticket.status = "resolved" ∧
    (RollbackManager.execute_rollback_f c5_fail [] c5_state 1 "undo" 4).2.entry.rolled_back
      = false := by
  refine ⟨rfl, rfl, rfl, ?_⟩
  decide

/-- Helper for C5: failure semantics of the AUTO_RESOLVE rollback
handler. -/
theorem rollback_auto_resolve_f_failure (fail : FailSpec) (s : RbState) (b : Nat)
    (r : String) (n : Nat) (h0 : s.entry.rolled_back = false) :
    ((fail.ticket_save_fails = true ∨ fail.interaction_create_fails = true ∨
      fail.entry_save_fails = true) →
      (RollbackManager.rollback_auto_resolve_f fail s b r n).1 = false) ∧
    ((RollbackManager.rollback_auto_resolve_f fail s b r n).2.entry.rolled_back = true →
      (RollbackManager.rollback_auto_resolve_f fail s b r n).1 = true ∧
      fail.ticket_save_fails = false ∧ fail.entry_save_fails = false) ∧
    (fail.entry_save_fails = true →
      (RollbackManager.rollback_auto_resolve_f fail s b r n).2.entry = s.entry) := by
  obtain ⟨ft, fi, fe⟩ := fail
  cases ft <;> cases fi <;> cases fe <;>
    simp [RollbackManager.rollback_auto_resolve_f, markRolledBack, h0]

/-- Helper for C5: failure semantics of the ESCALATE rollback handler. -/
theorem rollback_escalate_f_failure (fail : FailSpec) (s : RbState) (b : Nat)
    (r : String) (n : Nat) (h0 : s.entry.rolled_back = false) :
    ((fail.ticket_save_fails = true ∨ fail.interaction_create_fails = true ∨
      fail.entry_save_fails = true) →
      (RollbackManager.rollback_escalate_f fail s b r n).1 = false) ∧
    ((RollbackManager.rollback_escalate_f fail s b r n).2.entry.rolled_back = true →
      (RollbackManager.rollback_escalate_f fail s b r n).1 = true ∧
      fail.ticket_save_fails = false ∧ fail.entry_save_fails = false) ∧
    (fail.entry_save_fails = true →
      (RollbackManager.rollback_escalate_f fail s b r n).2.entry = s.entry) := by
  obtain ⟨ft, fi, fe⟩ := fail
  cases ft <;> cases fi <;> cases fe <;>
    simp [RollbackManager.rollback_escalate_f, markRolledBack, h0]

/-- Helper for C5: failure semantics of the ASSIGN_TO_TEAM rollback
handler (the assignee lookup may additionally raise before any write). -/
theorem rollback_assign_to_team_f_failure (fail : FailSpec) (users : List Nat)
    (s : RbState) (b : Nat) (r : String) (n : Nat) (h0 : s.entry.rolled_back = false) :
    ((fail.ticket_save_fails = true ∨ fail.interaction_create_fails = true ∨
      fail.entry_save_fails = true) →
      (RollbackManager.rollback_assign_to_team_f fail users s b r n).1 = false) ∧
    ((RollbackManager.rollback_assign_to_team_f fail users s b r n).2.entry.rolled_back
        = true →
      (RollbackManager.rollback_assign_to_team_f fail users s b r n).1 = true ∧
      fail.ticket_save_fails = false ∧ fail.entry_save_fails = false) ∧
    (fail.entry_save_fails = true →
      (RollbackManager.rollback_assign_to_team_f fail users s b r n).2.entry
        = s.entry) := by
  obtain ⟨ft, fi, fe⟩ := fail
  rcases hbs : s.entry.before_state with _ | bs
  · cases ft <;> cases fi <;> cases fe <;>
      simp [RollbackManager.rollback_assign_to_team_f, markRolledBack, h0, hbs]
  · rcases hid : bs.assigned_to_id with _ | prev
    · cases ft <;> cases fi <;> cases fe <;>
        simp [RollbackManager.rollback_assign_to_team_f, markRolledBack, h0, hbs, hid]
    · by_cases hz : prev = 0
      · cases ft <;> cases fi <;> cases fe <;>
          simp [RollbackManager.rollback_assign_to_team_f, markRolledBack, h0, hbs,
            hid, hz]
      · by_cases hu : prev ∈ users <;>
          cases ft <;> cases fi <;> cases fe <;>
          simp [RollbackManager.rollback_assign_to_team_f, markRolledBack, h0, hbs,
            hid, hz, hu]

/-- C5 (amended): on any persistence failure `execute_rollback` returns
false, and the entry is marked rolled back only when every write
succeeded (never a rolled-back flag without the committed ticket effect);
however the handlers save the ticket first, so a failure of the final
entry write leaves the ticket mutation committed without the flag —
state is NOT left untouched. -/
theorem C5_rollback_failure_semantics (fail : FailSpec) (users : List Nat) (s : RbState)
    (actor : Nat) (r : String) (now : Nat) (h0 : s.entry.rolled_back = false) :
    ((fail.ticket_save_fails = true ∨ fail.interaction_create_fails = true ∨
      fail.entry_save_fails = true) →
      (RollbackManager.execute_rollback_f fail users s actor r now).1 = false) ∧
    ((RollbackManager.execute_rollback_f fail users s actor r now).2.entry.rolled_back
        = true →
      (RollbackManager.execute_rollback_f fail users s actor r now).1 = true ∧
      fail.ticket_save_fails = false ∧ fail.entry_save_fails = false) ∧
    (fail.entry_save_fails = true →
      (RollbackManager.execute_rollback_f fail users s actor r now).2.entry
        = s.entry) := by
  unfold RollbackManager.execute_rollback_f
  split_ifs with h1 h2 h3
  · exact rollback_auto_resolve_f_failure fail s actor r now h0
  · exact rollback_assign_to_team_f_failure fail users s actor r now h0
  · exact rollback_escalate_f_failure fail s actor r now h0
  · simp [h0]

/-- C5 witness: the amended failure semantics at the concrete failing
state of the counterexample. -/
theorem C5_rollback_failure_semantics_witness :
    (RollbackManager.execute_rollback_f c5_fail [] c5_state 1 "undo" 4).1 = false ∧
    (RollbackManager.execute_rollback_f c5_fail [] c5_state 1 "undo" 4).2.entry
      = c5_state.entry :=
  ⟨(C5_rollback_failure_semantics c5_fail [] c5_state 1 "undo" 4 rfl).1
     (Or.inr (Or.inr rfl)),
   (C5_rollback_failure_semantics c5_fail [] c5_state 1 "undo" 4 rfl).2.2 rfl⟩

/-- C6: AUTO_RESOLVE executor postconditions — success, status set to
`resolved`, exactly one new history entry carrying
`rollback_possible = true` and the before/after snapshots of
status and assignee, one new interaction record, a get-or-create of the
ResolutionTracking row, and exactly one follow-up task scheduled 24 hours
(86400 s) out. -/
theorem C6_auto_resolve_postconditions (s : ExecState) (params : ActionParams) :
    (handle_auto_resolve s params).1 = true ∧
    (handle_auto_resolve s params).2.ticket.status = "resolved" ∧
    (handle_auto_resolve s params).2.history.length = s.history.length + 1 ∧
    ((handle_auto_resolve s params).2.history.getLast?).map
        (fun e => (e.action_type, e.rollback_possible, e.before_state, e.after_state)) =
      some ("AUTO_RESOLVE", true,
        some { status := some s.ticket.status, assigned_to_id := s.ticket.assigned_to },
        some { status := some "resolved", assigned_to_id := s.ticket.assigned_to }) ∧
    (handle_auto_resolve s params).2.interactions.length = s.interactions.length + 1 ∧
    (handle_auto_resolve s params).2.resolution.isSome = true ∧
    (∀ old, s.resolution = some old →
      (handle_auto_resolve s params).2.resolution = some old) ∧
    (s.resolution = none →
      (handle_auto_resolve s params).2.resolution = some (newResolution "AUTO_RESOLVE")) ∧
    (handle_auto_resolve s params).2.scheduled =
      s.scheduled ++ [{ task := "schedule_resolution_followup", countdown := 86400 }] := by
  refine ⟨rfl, rfl, by simp [handle_auto_resolve], ?_, by simp [handle_auto_resolve],
    ?_, ?_, ?_, rfl⟩
  · simp [handle_auto_resolve, snapshotOf]
  · cases h : s.resolution <;> simp [handle_auto_resolve, h]
  · intro old h
    simp [handle_auto_resolve, h]
  · intro h
    simp [handle_auto_resolve, h]

/-- Concrete executor state before a first AUTO_RESOLVE, for the C6
witness (the end-to-end scenario of spec §8: confidence 0.92 and two
resolution steps). -/
def c6_state : ExecState :=
  { ticket := { user := 5, status := "in_progress", assigned_to := none,
                agent_response := some { confidence := some (92 / 100),
                                         explanation := some "known fix" } },
    history := [], interactions := [], resolution := none, scheduled := [] }

/-- C6 witness: the postconditions at the concrete end-to-end state,
including the get-or-create clause for the absent resolution row. -/
theorem C6_auto_resolve_postconditions_witness :
    (handle_auto_resolve c6_state c3_params).1 = true ∧
    (handle_auto_resolve c6_state c3_params).2.resolution
      = some (newResolution "AUTO_RESOLVE") ∧
    (handle_auto_resolve c6_state c3_params).2.scheduled
      = [{ task := "schedule_resolution_followup", countdown := 86400 }] :=
  ⟨(C6_auto_resolve_postconditions c6_state c3_params).1,
   (C6_auto_resolve_postconditions c6_state c3_params).2.2.2.2.2.2.2.1 rfl,
   (C6_auto_resolve_postconditions c6_state c3_params).2.2.2.2.2.2.2.2⟩

/-- Concrete executor state for C7: the solution did not hold, the ticket
is back to `new` when the follow-up fires. -/
def c7_state : ExecState :=
  { ticket := { user := 5, status := "new", assigned_to := none,
                agent_response := none },
    history := [], interactions := [], resolution := none, scheduled := [] }

/-- C7 counterexample: the escalation reason recorded by the follow-up
check is the capitalised sentence `"Solution did not resolve issue within
expected timeframe"`, not the all-lowercase string the claim quotes. -/
theorem C7_reason_capitalised :
    ((check_ticket_followup c7_state c3_params).history.getLast?).map
        ActionHistory.agent_reasoning
      = some "Solution did not resolve issue within expected timeframe" ∧
    ¬ ((check_ticket_followup c7_state c3_params).history.getLast?).map
        ActionHistory.agent_reasoning
      = some "solution did not resolve issue within expected timeframe" := by
  constructor <;> decide

/-- C7 (amended): the follow-up check escalates exactly when the ticket
status is outside `resolved`/`closed`, recording the (capitalised) reason
`"Solution did not resolve issue within expected timeframe"` in one new
history entry; on a resolved or closed ticket it is a no-op — repeated
firings change nothing. -/
theorem C7_followup_check (s : ExecState) (p : ActionParams) :
    (s.ticket.status ∉ (["resolved", "closed"] : List String) →
      (check_ticket_followup s p).ticket.status = "escalated" ∧
      (check_ticket_followup s p).history.length = s.history.length + 1 ∧
      ((check_ticket_followup s p).history.getLast?).map ActionHistory.agent_reasoning
        = some "Solution did not resolve issue within expected timeframe") ∧
    (s.ticket.status ∈ (["resolved", "closed"] : List String) →
      check_ticket_followup s p = s) := by
  constructor
  · intro h
    refine ⟨?_, ?_, ?_⟩ <;>
      simp [check_ticket_followup, handle_escalate, h]
  · intro h
    simp [check_ticket_followup, h]

/-- Concrete resolved-ticket state for the C7 witness. -/
def c7_resolved : ExecState :=
  { ticket := { user := 5, status := "resolved", assigned_to := none,
                agent_response := none },
    history := [c3_prior], interactions := [],
    resolution := some (newResolution "AUTO_RESOLVE"),
    scheduled := [] }

/-- C7 witness: escalation on an unresolved ticket and the no-op on a
resolved one, at concrete states. -/
theorem C7_followup_check_witness :
    (check_ticket_followup c7_state c3_params).ticket.status = "escalated" ∧
    check_ticket_followup c7_resolved c3_params = c7_resolved :=
  ⟨((C7_followup_check c7_state c3_params).1 (by decide)).1,
   (C7_followup_check c7_resolved c3_params).2 (by decide)⟩

/-- C8: feedback reopening — `confirmed = false` marks the resolution row
reopened with timestamp and reason (the feedback text or the default) and
escalates the ticket; `confirmed = true` with satisfaction 5 on a row not
already reopened leaves `reopened = false` and makes the derived
`was_successful` true. -/
theorem C8_feedback_reopening (s : ExecState) (text : Option String) (sat : Option Nat)
    (now : Nat) :
    ((submit_resolution_feedback s ⟨some false, sat, text⟩ now).ticket.status
      = "escalated" ∧
     (submit_resolution_feedback s ⟨some false, sat, text⟩ now).resolution.map
        (fun r => (r.reopened, r.reopened_at, r.reopened_reason)) =
      some (true, some now, text.getD "User reported issue not resolved")) ∧
    (s.resolution.map TicketResolution.reopened ≠ some true →
      (submit_resolution_feedback s ⟨some true, some 5, text⟩ now).resolution.map
        (fun r => (r.reopened, was_successful r)) = some (false, some true)) := by
  constructor
  · constructor <;> simp [submit_resolution_feedback]
  · intro h
    cases hres : s.resolution with
    | none => simp [submit_resolution_feedback, was_successful, hres, newResolution]
    | some old =>
      rw [hres] at h
      cases hro : old.reopened
      · simp [submit_resolution_feedback, was_successful, hres, hro]
      · exact absurd (by simp [hro]) h

/-- Concrete executor state for the C8 witness: resolved ticket, no
resolution row yet. -/
def c8_state : ExecState :=
  { ticket := { user := 5, status := "resolved", assigned_to := none,
                agent_response := none },
    history := [], interactions := [], resolution := none, scheduled := [] }

/-- C8 witness: both feedback scenarios at concrete inputs. -/
theorem C8_feedback_reopening_witness :
    (submit_resolution_feedback c8_state ⟨some false, none, some "still broken"⟩
        20).ticket.status = "escalated" ∧
    (submit_resolution_feedback c8_state ⟨some true, some 5, none⟩ 20).resolution.map
      (fun r => (r.reopened, was_successful r)) = some (false, some true) :=
  ⟨(C8_feedback_reopening c8_state (some "still broken") none 20).1.1,
   (C8_feedback_reopening c8_state none (some 5) 20).2 (by decide)⟩

/-- C10: frame property of the ASSIGN_TO_TEAM rollback — it restores only
the assignee (from `before_state.assigned_to_id`, null when absent or
falsy) and never touches the ticket status; in particular the status
`"assigned"` written by the original `handle_assign_to_team` survives the
rollback. -/
theorem C10_assign_rollback_frame (users : List Nat) (s : RbState) (actor : Nat)
    (r : String) (now : Nat) (h : s.entry.action_type = "ASSIGN_TO_TEAM") :
    (RollbackManager.execute_rollback users s actor r now).2.ticket.status
      = s.ticket.status ∧
    ((RollbackManager.execute_rollback users s actor r now).1 = true →
      (RollbackManager.execute_rollback users s actor r now).2.ticket.assigned_to =
        (match s.entry.before_state with
         | some bs =>
           match bs.assigned_to_id with
           | some prev => if prev ≠ 0 then some prev else none
           | none => none
         | none => none)) ∧
    (∀ es p, (handle_assign_to_team es p).2.ticket.status = "assigned") := by
  refine ⟨?_, ?_, fun es p => rfl⟩
  · rcases hbs : s.entry.before_state with _ | bs
    · simp [RollbackManager.execute_rollback, RollbackManager.execute_rollback_f,
        RollbackManager.rollback_assign_to_team_f, noFail, markRolledBack, h, hbs]
    · rcases hid : bs.assigned_to_id with _ | prev
      · simp [RollbackManager.execute_rollback, RollbackManager.execute_rollback_f,
          RollbackManager.rollback_assign_to_team_f, noFail, markRolledBack, h, hbs, hid]
      · by_cases hz : prev = 0
        · simp [RollbackManager.execute_rollback, RollbackManager.execute_rollback_f,
            RollbackManager.rollback_assign_to_team_f, noFail, markRolledBack, h, hbs,
            hid, hz]
        · by_cases hu : prev ∈ users <;>
            simp [RollbackManager.execute_rollback, RollbackManager.execute_rollback_f,
              RollbackManager.rollback_assign_to_team_f, noFail, markRolledBack, h, hbs,
              hid, hz, hu]
  · intro hsucc
    rcases hbs : s.entry.before_state with _ | bs
    · simp [RollbackManager.execute_rollback, RollbackManager.execute_rollback_f,
        RollbackManager.rollback_assign_to_team_f, noFail, markRolledBack, h, hbs]
    · rcases hid : bs.assigned_to_id with _ | prev
      · simp [RollbackManager.execute_rollback, RollbackManager.execute_rollback_f,
          RollbackManager.rollback_assign_to_team_f, noFail, markRolledBack, h, hbs, hid]
      · by_cases hz : prev = 0
        · simp [RollbackManager.execute_rollback, RollbackManager.execute_rollback_f,
            RollbackManager.rollback_assign_to_team_f, noFail, markRolledBack, h, hbs,
            hid, hz]
        · by_cases hu : prev ∈ users
          · simp [RollbackManager.execute_rollback, RollbackManager.execute_rollback_f,
              RollbackManager.rollback_assign_to_team_f, noFail, markRolledBack, h, hbs,
              hid, hz, hu]
          · rw [RollbackManager.execute_rollback, RollbackManager.execute_rollback_f]
              at hsucc
            simp [RollbackManager.rollback_assign_to_team_f, noFail, h, hbs, hid, hz,
              hu] at hsucc

/-- Concrete rollback state for the C10 witness: an ASSIGN_TO_TEAM entry
whose snapshot records the previous assignee 4, with the ticket currently
assigned (status `"assigned"`, assignee 9). -/
def c10_state : RbState :=
  { ticket := { status := "assigned", assigned_to := some 9 },
    entry := { action_type := "ASSIGN_TO_TEAM", confidence_score := none,
               agent_reasoning := "", rollback_possible := true,
               rollback_steps := some "rollback_assign_to_team",
               rolled_back := false, rolled_back_at := none, rolled_back_by := none,
               rollback_reason := "",
               before_state := some { status := some "new", assigned_to_id := some 4 },
               after_state := some { status := some "assigned", assigned_to_id := some 9 } },
    interactions := [] }

/-- C10 witness: the frame property at a concrete state — the status
stays `"assigned"` even though the snapshot recorded `"new"`, and only
the assignee is restored. -/
theorem C10_assign_rollback_frame_witness :
    (RollbackManager.execute_rollback [4, 9] c10_state 1 "undo" 6).2.ticket.status
      = "assigned" ∧
    (RollbackManager.execute_rollback [4, 9] c10_state 1 "undo" 6).2.ticket.assigned_to
      = some 4 :=
  ⟨(C10_assign_rollback_frame [4, 9] c10_state 1 "undo" 6 rfl).1,
   (C10_assign_rollback_frame [4, 9] c10_state 1 "undo" 6 rfl).2.1 (by decide)⟩

end ResolveMeQ
